import Mathlib

/-!
Verification of the Outbox-Labs email-aggregation core (src/main.py) against
its natural-language specification.

The Python source is shallowly embedded: the `Email` pydantic model becomes a
Lean structure, Python dicts become association lists over a small value type,
and the external collaborators (OpenAI call, Elasticsearch write, Chroma add,
Slack post, webhook post) are modelled by an `Env` record that fixes, for one
invocation, what each external call returns or raises.  State mutation is
explicit: every operation maps a `SysState` to a new `SysState` together with
an optional uncaught Python exception (`none` = normal return).
-/

namespace EmailAgg

/-- Values stored in an embedded Python dict / JSON document: a string, a
datetime (abstract timestamp), or JSON null (Python `None`). -/
inductive PyVal where
  | str : String → PyVal
  | dt : Nat → PyVal
  | null : PyVal
deriving DecidableEq

/-- Serialization of an `Optional[str]` field: `None` becomes null, a present
string is stored bare. -/
def optVal : Option String → PyVal
  | none => .null
  | some s => .str s

/-- The `Email` pydantic model (src/main.py lines 49-58).  `date` is an
abstract timestamp; `category` is `None` until the pipeline attaches a label.
The source field `to` is a Lean keyword and is embedded as `to_` (its dict key
below stays `"to"`). -/
structure Email where
  uid : String
  subject : String
  body : String
  from_ : String
  to_ : String
  date : Nat
  folder : String
  account : String
  category : Option String
deriving DecidableEq

/-- `email.dict()`: the field dictionary in pydantic declaration order. -/
def Email.dict (e : Email) : List (String × PyVal) :=
  [("uid", .str e.uid), ("subject", .str e.subject), ("body", .str e.body),
   ("from_", .str e.from_), ("to", .str e.to_), ("date", .dt e.date),
   ("folder", .str e.folder), ("account", .str e.account),
   ("category", optVal e.category)]

/-- Python `dict.pop(k)`: remove the entry with key `k`. -/
def dictRemove (k : String) (d : List (String × PyVal)) : List (String × PyVal) :=
  d.filter (fun kv => kv.1 ≠ k)

/-- Python `d[k] = v`: overwrite in place if `k` is present, else append. -/
def dictSet (k : String) (v : PyVal) (d : List (String × PyVal)) : List (String × PyVal) :=
  if (d.lookup k).isSome then d.map (fun kv => if kv.1 = k then (k, v) else kv)
  else d ++ [(k, v)]

/-- The document built by `EmailSearchService.index_email` (src/main.py lines
134-137): `doc = email.dict(); doc["from"] = doc.pop("from_")`. -/
def indexDoc (e : Email) : List (String × PyVal) :=
  dictSet "from" (.str e.from_) (dictRemove "from_" e.dict)

/-- Python exceptions that the modelled external calls can raise. -/
inductive PyExc where
  | openAIError
  | esWriteError
  | slackApiError
  | slackConnError
  | chromaAddError
  | indexError
deriving DecidableEq

/-- Outcomes of the external calls made during one `process_new_email`
invocation: what the categorizer model call returns (or raises), whether the
Elasticsearch write and the Chroma add succeed, and what exception, if any,
each notification sink raises internally. -/
structure Env where
  catResult : Except PyExc String
  esWriteOk : Bool
  chromaAddOk : Bool
  slackRaise : Option PyExc
  webhookRaise : Option PyExc

/-- The webhook request body built by `NotificationService.trigger_webhook`
(src/main.py lines 214-225): `json={"event": "email_interested", "data":
email.dict()}`. -/
def webhookPayload (e : Email) : String × List (String × PyVal) :=
  ("email_interested", e.dict)

/-- Observable system state: the Elasticsearch `emails` index contents (one
entry per `es.index` call that succeeded), the number of `es.index` call
attempts, the Chroma `emails` collection (id, document, metadata category),
and the Slack / webhook call attempts made so far. -/
structure SysState where
  esDocs : List (List (String × PyVal))
  esAttempts : Nat
  emailColl : List (String × String × Option String)
  slackCalls : List Email
  webhookCalls : List (String × List (String × PyVal))
deriving DecidableEq

/-- The state of a fresh system (empty index, no calls made). -/
def initState : SysState :=
  { esDocs := [], esAttempts := 0, emailColl := [], slackCalls := [], webhookCalls := [] }

/-- `AICategorizer.categorize` (src/main.py lines 164-186): the raw message
content returned by the model call is returned verbatim — no mapping onto the
category enumeration is applied. -/
def categorize (modelOutput : String) : String :=
  modelOutput

/-- `EmailSearchService.index_email` (src/main.py lines 134-137): one call to
`es.index(index="emails", document=doc)` with no document id, which appends a
new document under an auto-generated id; on failure the client raises. -/
def index_email (env : Env) (e : Email) (s : SysState) : SysState × Option PyExc :=
  let s1 := { s with esAttempts := s.esAttempts + 1 }
  if env.esWriteOk then
    ({ s1 with esDocs := s1.esDocs ++ [indexDoc e] }, none)
  else
    (s1, some .esWriteError)

/-- `NotificationService.send_slack_notification` (src/main.py lines 189-212):
the `chat_postMessage` call attempt is recorded; `except SlackApiError` catches
exactly `SlackApiError` — any other exception propagates. -/
def send_slack_notification (env : Env) (e : Email) (s : SysState) : SysState × Option PyExc :=
  let s1 := { s with slackCalls := s.slackCalls ++ [e] }
  match env.slackRaise with
  | none => (s1, none)
  | some exc => if exc = .slackApiError then (s1, none) else (s1, some exc)

/-- `NotificationService.trigger_webhook` (src/main.py lines 214-225): the
`requests.post` attempt is recorded; `except Exception` catches everything,
so no exception ever propagates. -/
def trigger_webhook (env : Env) (e : Email) (s : SysState) : SysState × Option PyExc :=
  let s1 := { s with webhookCalls := s.webhookCalls ++ [webhookPayload e] }
  match env.webhookRaise with
  | none => (s1, none)
  | some _ => (s1, none)

/-- `process_new_email` (src/main.py lines 301-319): categorize (an uncaught
raise aborts everything), index into Elasticsearch (uncaught raise aborts the
rest), add to the Chroma collection keyed by `uid` (uncaught raise aborts the
rest), then, iff the stored category equals "Interested", post to Slack and
trigger the webhook. -/
def process_new_email (env : Env) (e : Email) (s : SysState) : SysState × Option PyExc :=
  match env.catResult with
  | .error exc => (s, some exc)
  | .ok content =>
    let e1 := { e with category := some (categorize content) }
    match index_email env e1 s with
    | (s1, some exc) => (s1, some exc)
    | (s1, none) =>
      if env.chromaAddOk then
        let s2 := { s1 with emailColl := s1.emailColl ++ [(e1.uid, e1.body, e1.category)] }
        if e1.category = some "Interested" then
          match send_slack_notification env e1 s2 with
          | (s3, some exc) => (s3, some exc)
          | (s3, none) => trigger_webhook env e1 s3
        else
          (s2, none)
      else
        (s1, some .chromaAddError)

/-- The `SearchQuery` pydantic model (src/main.py lines 60-64): a required
free-text term and three optional exact-match filters. -/
structure SearchQuery where
  text : String
  account : Option String
  folder : Option String
  category : Option String
deriving DecidableEq

/-- One clause of the Elasticsearch bool query body that
`EmailSearchService.search` builds: a full-text `match` on `body`, or an
exact `term` filter on a keyword field. -/
inductive Clause where
  | matchBody : String → Clause
  | term : String → String → Clause
deriving DecidableEq

/-- Python truthiness of an optional string (`None` and `""` are falsy). -/
def truthy : Option String → Bool
  | none => false
  | some s => s ≠ ""

/-- The `must` list built by `search` (src/main.py lines 140-142):
`if query.text: must.append({"match": {"body": query.text}})`. -/
def buildMust (q : SearchQuery) : List Clause :=
  if q.text ≠ "" then [.matchBody q.text] else []

/-- The `filters` list built by `search` (src/main.py lines 144-150): one
`term` clause per truthy optional filter, in source order. -/
def buildFilters (q : SearchQuery) : List Clause :=
  (if truthy q.account then [Clause.term "account" (q.account.getD "")] else []) ++
  (if truthy q.folder then [Clause.term "folder" (q.folder.getD "")] else []) ++
  (if truthy q.category then [Clause.term "category" (q.category.getD "")] else [])

/-- Document-store semantics of one bool-query clause, with the engine's
full-text matching abstracted as a predicate `matchFn body text`: a `term`
clause holds iff the document's field equals the value exactly. -/
def evalClause (matchFn : String → String → Bool) (d : List (String × PyVal)) :
    Clause → Bool
  | .matchBody t =>
    match d.lookup "body" with
    | some (.str b) => matchFn b t
    | _ => false
  | .term f v => d.lookup f = some (.str v)

/-- The hit set of `EmailSearchService.search` (src/main.py lines 139-162): the
stored documents satisfying every `must` clause and every `filter` clause of
the bool query (bool-query conjunction semantics of the document store). -/
def searchHits (matchFn : String → String → Bool)
    (docs : List (List (String × PyVal))) (q : SearchQuery) :
    List (List (String × PyVal)) :=
  docs.filter (fun d => (buildMust q ++ buildFilters q).all (evalClause matchFn d))

/-- The closed category enumeration as the specification words it
(spec section 3, CategoryLabel). -/
def specCategoryEnum : List String :=
  ["Interested", "MeetingBooked", "NotInterested", "Spam", "OutOfOffice", "Uncategorized"]

/-- Chroma `collection.query` result `documents` for one query embedding: one
inner list holding the stored documents nearest to the query, best first,
truncated to `n_results`; `ranked` is the similarity-ordered document list
(empty when the collection is empty). -/
def chromaQueryDocs (ranked : List String) (nResults : Nat) : List (List String) :=
  [ranked.take nResults]

/-- The generation prompt of `ReplySuggestor.suggest_reply` (src/main.py lines
251-260): instructions, the subject, the first 1000 characters of the body,
and the retrieved context. -/
def replyPrompt (e : Email) (context : String) : String :=
  "Generate a professional reply to this email using the provided context. Subject: "
    ++ e.subject ++ " Body: " ++ (e.body.take 1000) ++ " Context: " ++ context
    ++ " Suggested Reply:"

/-- `ReplySuggestor.suggest_reply` (src/main.py lines 240-268):
`context = results["documents"][0][0]` — indexing `[0]` into the inner result
list raises `IndexError` when no document was retrieved; otherwise the model
output on the grounded prompt is returned verbatim. -/
def suggest_reply (ranked : List String) (genModel : String → String) (e : Email) :
    Except PyExc String :=
  match (chromaQueryDocs ranked 1).head? >>= List.head? with
  | none => .error .indexError
  | some context => .ok (genModel (replyPrompt e context))

/-- Decimal digit character (Python prints decimal numerals with these). -/
def digitChar (d : Nat) : Char :=
  Char.ofNat (48 + d)

/-- Embedding of Python `str` on a natural number: its decimal numeral. -/
def pyStr (n : Nat) : String :=
  if n = 0 then "0" else String.mk ((Nat.digits 10 n).reverse.map digitChar)

/-- Decimal value of a digit character (left inverse of `digitChar`). -/
def charToDigit (c : Char) : Nat :=
  c.toNat - 48

/-- Parse a decimal numeral string back to a natural number. -/
def pyVal (s : String) : Nat :=
  Nat.ofDigits 10 ((s.data.map charToDigit).reverse)

/-- The curated knowledge collection (`outreach_knowledge`): stored snippet
ids and documents, in insertion order. -/
structure KStore where
  ids : List String
  docs : List String
deriving DecidableEq

/-- A fresh, empty knowledge collection (its state at process start, before
the initial `add_knowledge` call at src/main.py lines 278-281). -/
def emptyKStore : KStore :=
  { ids := [], docs := [] }

/-- `ReplySuggestor.add_knowledge` as evidently intended at src/main.py lines
232-238.  As written, line 235 reads
`ids=[str(len(self.collection.get()["ids"]) + 1],` — the parenthesis opened
after `str` is never closed, a Python SyntaxError, so the module cannot load;
the evident intent is `str(len(self.collection.get()["ids"]) + 1)`: assign
the id `str(current snippet count + 1)` and append the snippet. -/
def add_knowledge (s : KStore) (text : String) : KStore :=
  { ids := s.ids ++ [pyStr (s.ids.length + 1)], docs := s.docs ++ [text] }

/-- Count of indexed documents carrying a given `(account, uid)` pair. -/
def countFor (acct uid : String) (docs : List (List (String × PyVal))) : Nat :=
  docs.countP (fun d =>
    decide (d.lookup "account" = some (.str acct) ∧ d.lookup "uid" = some (.str uid)))

/-- A concrete incoming email (the spec's end-to-end scenario 1 record). -/
def sampleEmail : Email :=
  { uid := "1", subject := "Re: demo", body := "Looking forward to Tuesday",
    from_ := "lead@y.com", to_ := "me@x.com", date := 0, folder := "INBOX",
    account := "a@x.com", category := none }

/-- An environment in which every external call succeeds and the categorizer
model returns "Interested". -/
def okEnv : Env :=
  { catResult := .ok "Interested", esWriteOk := true, chromaAddOk := true,
    slackRaise := none, webhookRaise := none }

/-- An environment in which the categorizer model returns the free-form text
"banana", outside the closed enumeration. -/
def bananaEnv : Env :=
  { okEnv with catResult := .ok "banana" }

/-- An environment in which the categorizer call raises (e.g. a timeout). -/
def timeoutEnv : Env :=
  { okEnv with catResult := .error .openAIError }

/-- An environment in which the Slack client raises a connection error, which
is not a `SlackApiError`. -/
def connFailEnv : Env :=
  { okEnv with slackRaise := some .slackConnError }

/-- An environment in which the Slack client raises a `SlackApiError`. -/
def apiErrEnv : Env :=
  { okEnv with slackRaise := some .slackApiError }

/-- An environment in which the Elasticsearch write fails. -/
def esFailEnv : Env :=
  { okEnv with esWriteOk := false }

/-- Demo record: account "X", category "A". -/
def emailXA : Email :=
  { sampleEmail with uid := "xa", account := "X", category := some "A" }

/-- Demo record: account "X", category "B". -/
def emailXB : Email :=
  { sampleEmail with uid := "xb", account := "X", category := some "B" }

/-- Demo record: account "Y", category "A". -/
def emailYA : Email :=
  { sampleEmail with uid := "ya", account := "Y", category := some "A" }

/-- A small indexed corpus with accounts X and Y and categories A and B. -/
def demoDocs : List (List (String × PyVal)) :=
  [indexDoc emailXA, indexDoc emailXB, indexDoc emailYA]

/-- The query of the spec's conjunction scenario: account=X AND category=A,
no text term, no folder filter. -/
def demoQuery : SearchQuery :=
  { text := "", account := some "X", folder := none, category := some "A" }

/-! ## Helper lemmas -/

theorem charToDigit_digitChar : ∀ d, d < 10 → charToDigit (digitChar d) = d := by
  decide

theorem pyVal_pyStr (n : Nat) : pyVal (pyStr n) = n := by
  unfold pyStr pyVal
  by_cases h : n = 0
  · subst h
    rw [if_pos rfl]
    have h0 : (("0" : String).data.map charToDigit).reverse = [0] := by decide
    rw [h0, Nat.ofDigits_singleton]
  · rw [if_neg h]
    have hdata : (String.mk ((Nat.digits 10 n).reverse.map digitChar)).data
        = (Nat.digits 10 n).reverse.map digitChar := rfl
    rw [hdata, List.map_map]
    have hmap : (Nat.digits 10 n).reverse.map (charToDigit ∘ digitChar)
        = (Nat.digits 10 n).reverse := by
      have hmem : ∀ x ∈ (Nat.digits 10 n).reverse, (charToDigit ∘ digitChar) x = id x := by
        intro x hx
        have hx10 : x < 10 :=
          Nat.digits_lt_base (by norm_num) (List.mem_reverse.mp hx)
        simpa using charToDigit_digitChar x hx10
      rw [List.map_congr_left hmem, List.map_id]
    rw [hmap, List.reverse_reverse, Nat.ofDigits_digits]

theorem pyStr_injective : Function.Injective pyStr :=
  Function.LeftInverse.injective pyVal_pyStr

theorem add_knowledge_ids (texts : List String) (st : KStore) :
    (texts.foldl add_knowledge st).ids =
      st.ids ++ (List.range texts.length).map (fun i => pyStr (st.ids.length + i + 1)) := by
  induction texts generalizing st with
  | nil => simp
  | cons t ts ih =>
    rw [List.foldl_cons, ih]
    simp [add_knowledge, List.range_succ_eq_map]
    intro a ha
    congr 1
    ring

theorem process_esDocs (env : Env) (e : Email) (s : SysState) (c : String)
    (hc : env.catResult = .ok c) (hes : env.esWriteOk = true) :
    (process_new_email env e s).1.esDocs =
      s.esDocs ++ [indexDoc { e with category := some (categorize c) }] := by
  obtain ⟨cr, ew, ca, sr, wr⟩ := env
  replace hc : cr = Except.ok c := hc
  replace hes : ew = true := hes
  subst hc; subst hes
  cases ca <;> cases sr <;> cases wr <;>
    simp [process_new_email, index_email, send_slack_notification, trigger_webhook] <;>
    split_ifs <;> simp_all [categorize]

theorem indexDoc_lookup_account (e : Email) :
    (indexDoc e).lookup "account" = some (.str e.account) := rfl

theorem indexDoc_lookup_uid (e : Email) :
    (indexDoc e).lookup "uid" = some (.str e.uid) := rfl

/-! ## Claim C1 -/

/-- Claim C1, counterexample: `process_new_email` invoked twice on the very
same email record (same `(account, uid)`), every external call succeeding,
leaves TWO indexed documents for `(a@x.com, "1")` in the search index, not
exactly one — `index_email` appends instead of upserting. -/
theorem C1_upsert_counterexample :
    countFor "a@x.com" "1"
        (process_new_email okEnv sampleEmail
          (process_new_email okEnv sampleEmail initState).1).1.esDocs = 2 ∧
    countFor "a@x.com" "1"
        (process_new_email okEnv sampleEmail
          (process_new_email okEnv sampleEmail initState).1).1.esDocs ≠ 1 := by
  constructor <;> decide

/-- Claim C1 as amended: the index write of `process_new_email` is an append
(`es.index` is called without a document id), so each successful re-processing
of the same `(account, uid)` adds one more indexed record for that pair; the
last indexed record carries the fields of the most recent processing. -/
theorem C1_reindex_appends_two_records (env1 env2 : Env) (e : Email) (s : SysState)
    (c1 c2 : String)
    (h1 : env1.catResult = .ok c1) (h2 : env1.esWriteOk = true)
    (h3 : env2.catResult = .ok c2) (h4 : env2.esWriteOk = true) :
    countFor e.account e.uid
        (process_new_email env2 e (process_new_email env1 e s).1).1.esDocs =
      countFor e.account e.uid s.esDocs + 2 ∧
    (process_new_email env2 e (process_new_email env1 e s).1).1.esDocs.getLast? =
      some (indexDoc { e with category := some (categorize c2) }) := by
  have hA := process_esDocs env1 e s c1 h1 h2
  have hB := process_esDocs env2 e (process_new_email env1 e s).1 c2 h3 h4
  rw [hB, hA]
  constructor
  · simp [countFor, List.countP_append, List.countP_cons,
      indexDoc_lookup_account, indexDoc_lookup_uid]
  · simp

/-- Witness for `C1_reindex_appends_two_records` at the concrete scenario. -/
theorem C1_reindex_appends_two_records_witness :
    countFor sampleEmail.account sampleEmail.uid
        (process_new_email okEnv sampleEmail
          (process_new_email okEnv sampleEmail initState).1).1.esDocs =
      countFor sampleEmail.account sampleEmail.uid initState.esDocs + 2 ∧
    (process_new_email okEnv sampleEmail
        (process_new_email okEnv sampleEmail initState).1).1.esDocs.getLast? =
      some (indexDoc { sampleEmail with category := some (categorize "Interested") }) :=
  C1_reindex_appends_two_records okEnv okEnv sampleEmail initState
    "Interested" "Interested" rfl rfl rfl rfl

/-! ## Claim C2 -/

/-- Claim C2, counterexample: when the categorizer model returns "banana",
`process_new_email` stores "banana" verbatim as the record's category — the
stored label is outside the closed enumeration and is not coerced to
"Uncategorized". -/
theorem C2_closure_counterexample :
    (process_new_email bananaEnv sampleEmail initState).1.esDocs =
      [indexDoc { sampleEmail with category := some "banana" }] ∧
    (indexDoc { sampleEmail with category := some "banana" }).lookup "category" =
      some (.str "banana") ∧
    "banana" ∉ specCategoryEnum ∧
    "banana" ≠ "Uncategorized" := by
  refine ⟨by decide, by decide, by decide, by decide⟩

/-- Claim C2 as amended: the category label stored on the processed record is
the categorizer's raw output string, stored verbatim; output not matching a
known label is stored unchanged, not coerced to "Uncategorized". -/
theorem C2_raw_label_stored_verbatim (env : Env) (e : Email) (s : SysState)
    (c : String) (hc : env.catResult = .ok c) (hes : env.esWriteOk = true) :
    (process_new_email env e s).1.esDocs.getLast? =
      some (indexDoc { e with category := some (categorize c) }) ∧
    (indexDoc { e with category := some (categorize c) }).lookup "category" =
      some (.str c) := by
  constructor
  · rw [process_esDocs env e s c hc hes]
    simp
  · rfl

/-- Witness for `C2_raw_label_stored_verbatim` at the model output "banana". -/
theorem C2_raw_label_stored_verbatim_witness :
    (process_new_email bananaEnv sampleEmail initState).1.esDocs.getLast? =
      some (indexDoc { sampleEmail with category := some (categorize "banana") }) ∧
    (indexDoc { sampleEmail with category := some (categorize "banana") }).lookup
        "category" = some (.str "banana") :=
  C2_raw_label_stored_verbatim bananaEnv sampleEmail initState "banana" rfl rfl

/-! ## Claim C3 -/

/-- Claim C3, counterexample: when the categorizer call raises (timeout /
upstream error), `process_new_email` propagates the exception and the search
index stays empty — the record is NOT indexed with category "Uncategorized"
(no notification is dispatched either, but for the wrong reason: the whole
pipeline aborted). -/
theorem C3_failure_counterexample :
    process_new_email timeoutEnv sampleEmail initState =
      (initState, some PyExc.openAIError) ∧
    (process_new_email timeoutEnv sampleEmail initState).1.esDocs = [] := by
  refine ⟨by decide, by decide⟩

/-- Claim C3 as amended: a categorization failure aborts `process_new_email`
entirely — the exception propagates, the system state is unchanged (nothing
indexed, no category attached, no notification dispatched). -/
theorem C3_categorizer_failure_aborts_pipeline (env : Env) (e : Email)
    (s : SysState) (exc : PyExc) (hc : env.catResult = .error exc) :
    process_new_email env e s = (s, some exc) := by
  obtain ⟨cr, ew, ca, sr, wr⟩ := env
  replace hc : cr = Except.error exc := hc
  subst hc
  simp [process_new_email]

/-- Witness for `C3_categorizer_failure_aborts_pipeline` at a timed-out call. -/
theorem C3_categorizer_failure_aborts_pipeline_witness :
    process_new_email timeoutEnv sampleEmail initState =
      (initState, some PyExc.openAIError) :=
  C3_categorizer_failure_aborts_pipeline timeoutEnv sampleEmail initState
    PyExc.openAIError rfl

/-! ## Claim C4 -/

/-- Claim C4, confirmed: on a run in which the preceding stages complete
(categorizer returned a label, index write and vector add succeeded) and the
Slack client either succeeds or raises the caught `SlackApiError`, the Slack
post and the webhook are each attempted exactly once iff the final category
equals "Interested", and zero times for every other label. -/
theorem C4_notification_gating (env : Env) (e : Email) (s : SysState) (c : String)
    (hc : env.catResult = .ok c) (hes : env.esWriteOk = true)
    (hca : env.chromaAddOk = true)
    (hsr : env.slackRaise = none ∨ env.slackRaise = some PyExc.slackApiError) :
    (process_new_email env e s).1.slackCalls =
      s.slackCalls ++
        (if c = "Interested" then [{ e with category := some (categorize c) }] else []) ∧
    (process_new_email env e s).1.webhookCalls =
      s.webhookCalls ++
        (if c = "Interested" then
          [webhookPayload { e with category := some (categorize c) }]
         else []) := by
  obtain ⟨cr, ew, ca, sr, wr⟩ := env
  replace hc : cr = Except.ok c := hc
  replace hes : ew = true := hes
  replace hca : ca = true := hca
  subst hc; subst hes; subst hca
  rcases hsr with hsr | hsr <;>
    replace hsr : sr = _ := hsr <;> subst hsr <;> cases wr <;>
    by_cases hint : c = "Interested" <;>
    simp [process_new_email, index_email, send_slack_notification, trigger_webhook,
      categorize, hint]

/-- Witness for `C4_notification_gating` at a fully successful "Interested"
run: both sinks fire exactly once. -/
theorem C4_notification_gating_witness :
    (process_new_email okEnv sampleEmail initState).1.slackCalls =
      initState.slackCalls ++
        (if "Interested" = "Interested" then
          [{ sampleEmail with category := some (categorize "Interested") }]
         else []) ∧
    (process_new_email okEnv sampleEmail initState).1.webhookCalls =
      initState.webhookCalls ++
        (if "Interested" = "Interested" then
          [webhookPayload { sampleEmail with category := some (categorize "Interested") }]
         else []) :=
  C4_notification_gating okEnv sampleEmail initState "Interested" rfl rfl rfl
    (Or.inl rfl)

/-! ## Claim C5 -/

/-- Claim C5, counterexample: with an empty knowledge base, `suggest_reply`
raises `IndexError` (from `results["documents"][0][0]`) instead of returning
a generated reply without grounding context. -/
theorem C5_empty_store_counterexample :
    suggest_reply [] id sampleEmail = .error .indexError := rfl

/-- Claim C5 as amended: when the knowledge base is empty, `suggest_reply`
raises `IndexError` while reading the retrieved context; it never reaches the
generation call, for every generation model and every email. -/
theorem C5_empty_store_raises_index_error (genModel : String → String) (e : Email) :
    suggest_reply [] genModel e = .error .indexError := rfl

/-! ## Claim C6 -/

/-- Claim C6, counterexample: on an "Interested" email, a Slack failure that
is not a `SlackApiError` (e.g. a connection error) is NOT caught: the webhook
sink never runs and the exception propagates out of `process_new_email`. -/
theorem C6_sink_isolation_counterexample :
    (process_new_email connFailEnv sampleEmail initState).1.slackCalls =
      [{ sampleEmail with category := some "Interested" }] ∧
    (process_new_email connFailEnv sampleEmail initState).1.webhookCalls = [] ∧
    (process_new_email connFailEnv sampleEmail initState).2 =
      some PyExc.slackConnError := by
  refine ⟨by decide, by decide, by decide⟩

/-- Claim C6 as amended: the webhook sink catches every exception and never
propagates one; the Slack sink catches only `SlackApiError` — a `SlackApiError`
neither prevents the webhook nor propagates, but any other Slack exception
prevents the webhook from running and propagates out of `process_new_email`. -/
theorem C6_slack_catches_only_api_error (env : Env) (e : Email) (s : SysState)
    (hc : env.catResult = .ok "Interested") (hes : env.esWriteOk = true)
    (hca : env.chromaAddOk = true) :
    (env.slackRaise = some PyExc.slackApiError →
      (process_new_email env e s).2 = none ∧
      (process_new_email env e s).1.webhookCalls =
        s.webhookCalls ++
          [webhookPayload { e with category := some (categorize "Interested") }]) ∧
    (env.slackRaise = none → (process_new_email env e s).2 = none) ∧
    (∀ exc, env.slackRaise = some exc → exc ≠ PyExc.slackApiError →
      (process_new_email env e s).1.webhookCalls = s.webhookCalls ∧
      (process_new_email env e s).2 = some exc) := by
  obtain ⟨cr, ew, ca, sr, wr⟩ := env
  replace hc : cr = Except.ok "Interested" := hc
  replace hes : ew = true := hes
  replace hca : ca = true := hca
  subst hc; subst hes; subst hca
  refine ⟨?_, ?_, ?_⟩
  · intro hsr
    replace hsr : sr = some PyExc.slackApiError := hsr
    subst hsr
    cases wr <;>
      simp [process_new_email, index_email, send_slack_notification, trigger_webhook,
        categorize]
  · intro hsr
    replace hsr : sr = none := hsr
    subst hsr
    cases wr <;>
      simp [process_new_email, index_email, send_slack_notification, trigger_webhook,
        categorize]
  · intro exc hsr hne
    replace hsr : sr = some exc := hsr
    subst hsr
    cases wr <;>
      simp [process_new_email, index_email, send_slack_notification, trigger_webhook,
        categorize, hne]

/-- Witness for `C6_slack_catches_only_api_error`: a `SlackApiError` is caught
and the webhook still fires. -/
theorem C6_slack_catches_only_api_error_witness :
    (process_new_email apiErrEnv sampleEmail initState).2 = none ∧
    (process_new_email apiErrEnv sampleEmail initState).1.webhookCalls =
      initState.webhookCalls ++
        [webhookPayload { sampleEmail with category := some (categorize "Interested") }] :=
  (C6_slack_catches_only_api_error apiErrEnv sampleEmail initState rfl rfl rfl).1 rfl

/-! ## Claim C7 -/

/-- Claim C7, counterexample: when the index write fails, `process_new_email`
makes exactly one write attempt — not three — indexes nothing, and terminates
by raising the error rather than returning a tagged partial-failure outcome. -/
theorem C7_no_retry_counterexample :
    (process_new_email esFailEnv sampleEmail initState).1.esAttempts = 1 ∧
    (process_new_email esFailEnv sampleEmail initState).1.esDocs = [] ∧
    (process_new_email esFailEnv sampleEmail initState).2 =
      some PyExc.esWriteError := by
  refine ⟨by decide, by decide, by decide⟩

/-- Claim C7 as amended: a failing index write is attempted exactly once, with
no retry or backoff; the exception propagates out of `process_new_email`,
aborting the vectorize and notify stages, and no outcome value distinguishing
success from partial failure is produced — failure is signalled only by the
uncaught exception. -/
theorem C7_index_failure_single_attempt_raises (env : Env) (e : Email)
    (s : SysState) (c : String)
    (hc : env.catResult = .ok c) (hes : env.esWriteOk = false) :
    process_new_email env e s =
      ({ s with esAttempts := s.esAttempts + 1 }, some PyExc.esWriteError) := by
  obtain ⟨cr, ew, ca, sr, wr⟩ := env
  replace hc : cr = Except.ok c := hc
  replace hes : ew = false := hes
  subst hc; subst hes
  simp [process_new_email, index_email]

/-- Witness for `C7_index_failure_single_attempt_raises` at the concrete
failing write. -/
theorem C7_index_failure_single_attempt_raises_witness :
    process_new_email esFailEnv sampleEmail initState =
      ({ initState with esAttempts := initState.esAttempts + 1 },
        some PyExc.esWriteError) :=
  C7_index_failure_single_attempt_raises esFailEnv sampleEmail initState
    "Interested" rfl rfl

/-! ## Claim C8 -/

/-- Claim C8, confirmed: every document returned by `search` comes from the
store and satisfies, conjunctively, the text match (when a text term is given)
and every supplied truthy equality filter on account, folder and category. -/
theorem C8_search_filters_conjunctive (matchFn : String → String → Bool)
    (docs : List (List (String × PyVal))) (q : SearchQuery)
    (d : List (String × PyVal)) (hd : d ∈ searchHits matchFn docs q) :
    d ∈ docs ∧
    (q.text ≠ "" → evalClause matchFn d (.matchBody q.text) = true) ∧
    (∀ a, q.account = some a → a ≠ "" → d.lookup "account" = some (.str a)) ∧
    (∀ f, q.folder = some f → f ≠ "" → d.lookup "folder" = some (.str f)) ∧
    (∀ c, q.category = some c → c ≠ "" → d.lookup "category" = some (.str c)) := by
  rw [searchHits, List.mem_filter] at hd
  obtain ⟨hmem, hall⟩ := hd
  rw [List.all_eq_true] at hall
  refine ⟨hmem, ?_, ?_, ?_, ?_⟩
  · intro ht
    exact hall _ (by simp [buildMust, buildFilters, ht])
  · intro a ha hane
    have h := hall (Clause.term "account" a)
      (by simp [buildMust, buildFilters, truthy, ha, hane])
    simpa [evalClause] using h
  · intro f hf hfne
    have h := hall (Clause.term "folder" f)
      (by simp [buildMust, buildFilters, truthy, hf, hfne])
    simpa [evalClause] using h
  · intro c hc hcne
    have h := hall (Clause.term "category" c)
      (by simp [buildMust, buildFilters, truthy, hc, hcne])
    simpa [evalClause] using h

/-- Witness for `C8_search_filters_conjunctive`: on a corpus with accounts
{X, Y} and categories {A, B}, the query account=X AND category=A admits the
(X, A) record, whose fields indeed match both filters. -/
theorem C8_search_filters_conjunctive_witness :
    indexDoc emailXA ∈ searchHits (fun _ _ => false) demoDocs demoQuery ∧
    (indexDoc emailXA).lookup "account" = some (.str "X") ∧
    (indexDoc emailXA).lookup "category" = some (.str "A") := by
  have hd : indexDoc emailXA ∈ searchHits (fun _ _ => false) demoDocs demoQuery := by
    decide
  have h := C8_search_filters_conjunctive (fun _ _ => false) demoDocs demoQuery
    (indexDoc emailXA) hd
  exact ⟨hd, h.2.2.1 "X" rfl (by decide), h.2.2.2.2 "A" rfl (by decide)⟩

/-! ## Claim C9 -/

/-- Claim C9: starting from the empty knowledge collection, any sequence of
`add_knowledge` calls assigns the ids "1", "2", ... in order — pairwise
distinct and, read as decimal numerals, strictly increasing in insertion
order.  (This holds for the evident intent of src/main.py line 235; as
written that line is a Python SyntaxError — see `add_knowledge`.) -/
theorem C9_ids_unique_monotone (texts : List String) :
    ((texts.foldl add_knowledge emptyKStore).ids =
      (List.range texts.length).map (fun i => pyStr (i + 1))) ∧
    (texts.foldl add_knowledge emptyKStore).ids.Nodup ∧
    (∀ i j : Nat, ∀ hi : i < (texts.foldl add_knowledge emptyKStore).ids.length,
      ∀ hj : j < (texts.foldl add_knowledge emptyKStore).ids.length, i < j →
        pyVal ((texts.foldl add_knowledge emptyKStore).ids.get ⟨i, hi⟩) <
          pyVal ((texts.foldl add_knowledge emptyKStore).ids.get ⟨j, hj⟩)) := by
  have hids : (texts.foldl add_knowledge emptyKStore).ids =
      (List.range texts.length).map (fun i => pyStr (i + 1)) := by
    rw [add_knowledge_ids texts emptyKStore]
    simp [emptyKStore]
  refine ⟨hids, ?_, ?_⟩
  · rw [hids]
    exact (List.nodup_range _).map fun a b hab =>
      Nat.succ_injective (pyStr_injective hab)
  · intro i j hi hj hij
    have hgi : (texts.foldl add_knowledge emptyKStore).ids.get ⟨i, hi⟩ = pyStr (i + 1) := by
      rw [List.get_of_eq hids ⟨i, hi⟩]
      simp
    have hgj : (texts.foldl add_knowledge emptyKStore).ids.get ⟨j, hj⟩ = pyStr (j + 1) := by
      rw [List.get_of_eq hids ⟨j, hj⟩]
      simp
    rw [hgi, hgj, pyVal_pyStr, pyVal_pyStr]
    omega

/-- Witness for `C9_ids_unique_monotone` after two insertions: the two ids are
distinct and numerically increasing. -/
theorem C9_ids_unique_monotone_witness :
    (["alpha", "beta"].foldl add_knowledge emptyKStore).ids.Nodup ∧
    pyVal ((["alpha", "beta"].foldl add_knowledge emptyKStore).ids.get
        ⟨0, by decide⟩) <
      pyVal ((["alpha", "beta"].foldl add_knowledge emptyKStore).ids.get
        ⟨1, by decide⟩) := by
  have h := C9_ids_unique_monotone ["alpha", "beta"]
  exact ⟨h.2.1, h.2.2 0 1 (by decide) (by decide) (by decide)⟩

/-! ## Claim C10 -/

/-- Claim C10, confirmed: the document `index_email` writes is the email's
field dictionary with the key "from_" replaced by "from" (the value moved
intact, "from_" absent, every other key unchanged), while the webhook payload
serializes the same record with the sender still under "from_". -/
theorem C10_index_renames_from_webhook_keeps (e : Email) :
    (indexDoc e).lookup "from" = some (.str e.from_) ∧
    (indexDoc e).lookup "from_" = none ∧
    (∀ k, k ≠ "from" → k ≠ "from_" →
      (indexDoc e).lookup k = e.dict.lookup k) ∧
    webhookPayload e = ("email_interested", e.dict) ∧
    e.dict.lookup "from_" = some (.str e.from_) := by
  refine ⟨rfl, rfl, ?_, rfl, rfl⟩
  intro k hk1 hk2
  have h1 : (k == "from") = false := by simpa using hk1
  have h2 : (k == "from_") = false := by simpa using hk2
  simp only [indexDoc, dictSet, dictRemove, Email.dict, List.lookup, List.filter]
  simp only [h1, h2]

/-- Witness for `C10_index_renames_from_webhook_keeps` at the sample record
and the untouched key "subject". -/
theorem C10_index_renames_from_webhook_keeps_witness :
    (indexDoc sampleEmail).lookup "from" = some (.str "lead@y.com") ∧
    (indexDoc sampleEmail).lookup "from_" = none ∧
    (indexDoc sampleEmail).lookup "subject" = sampleEmail.dict.lookup "subject" ∧
    sampleEmail.dict.lookup "from_" = some (.str "lead@y.com") := by
  have h := C10_index_renames_from_webhook_keeps sampleEmail
  exact ⟨h.1, h.2.1, h.2.2.1 "subject" (by decide) (by decide), h.2.2.2.2⟩

end EmailAgg
